import Mathlib

/-!
# Verification of the MySchool chatbot query pipeline

A shallow embedding, in Lean 4, of the query-normalisation and
intent-resolution pipeline of the `chatbotMyschool` repository, together
with proofs and refutations of the specification's claims about it.

JavaScript strings are modelled as `List Char`; JS `number` values that
the pipeline produces are integers (scores) or small rationals
(confidences), modelled as `ℕ` and `ℚ`.  The repository contains several
snapshots of the same module; each embedded variant records, in its doc
comment, the file it was translated from:

* namespace `ESS`   — `src/server/enhancedSemanticSearch.ts` (the TS source);
* namespace `P001`  — the `server/enhancedSemanticSearch.ts` section of the
  bundle `src/unnamed/part_001`;
* namespace `P006`  — the first document of `src/unnamed/part_006`;
* namespace `Spell` — the spelling-correction part of the
  `server/enhancedSemanticSearch.ts` section of `src/unnamed/part_002`;
* namespace `Adv`   — the `server/advancedSearch.ts` section of
  `src/unnamed/part_002`.
-/

attribute [local semireducible] Rat.add Rat.sub Rat.mul Rat.inv Rat.ofScientific

/-- The characters of a string literal; JS strings are modelled as `List Char`. -/
def jstr (s : String) : List Char := s.data

/-- The apostrophe character (written numerically to keep source lightweight). -/
def apos : Char := Char.ofNat 39

/-- Model of the JS `\s` character class (ASCII part: space, tab, LF, VT, FF, CR). -/
def jsIsWs (c : Char) : Bool :=
  c = ' ' || c = '\t' || c = '\n' || c = '\x0d' || c = Char.ofNat 11 || c = Char.ofNat 12

/-- JS `String.prototype.toLowerCase` (ASCII range, which is all the pipeline uses). -/
def jsToLower (s : List Char) : List Char := s.map Char.toLower

/-- JS `String.prototype.toUpperCase` (ASCII range). -/
def jsToUpper (s : List Char) : List Char := s.map Char.toUpper

/-- JS `String.prototype.trim`: strip whitespace from both ends. -/
def jsTrim (s : List Char) : List Char :=
  ((s.dropWhile jsIsWs).reverse.dropWhile jsIsWs).reverse

/-- JS `a.includes(b)` on strings: `b` occurs as a contiguous substring of `a`. -/
def jsIncludes (a b : List Char) : Bool := a.tails.any (fun t => b.isPrefixOf t)

/-- Worker for `jsSplitWs`: `cur` is the reversed current token and `inRun`
records whether the scanner is inside a whitespace run whose token has
already been emitted. -/
def splitWsGo : List Char → List Char → Bool → List (List Char)
  | [], cur, _ => [cur.reverse]
  | c :: rest, cur, inRun =>
    if jsIsWs c then
      if inRun then splitWsGo rest [] true
      else cur.reverse :: splitWsGo rest [] true
    else splitWsGo rest (c :: cur) false

/-- JS `s.split(/\s+/)`: split on maximal whitespace runs.  A leading
(resp. trailing) run contributes a leading (resp. trailing) empty token, and
`"".split(/\s+/)` is `[""]`, as in JS. -/
def jsSplitWs (s : List Char) : List (List Char) := splitWsGo s [] false

/-- Worker for `jsSplitChar`. -/
def splitCharGo (sep : Char) : List Char → List Char → List (List Char)
  | [], cur => [cur.reverse]
  | c :: rest, cur =>
    if c = sep then cur.reverse :: splitCharGo sep rest []
    else splitCharGo sep rest (c :: cur)

/-- JS `s.split(sep)` for a single-character separator (no run collapsing,
empty pieces kept). -/
def jsSplitChar (sep : Char) (s : List Char) : List (List Char) :=
  splitCharGo sep s []

/-- JS `arr.join(sep)`. -/
def jsJoin (sep : List Char) (l : List (List Char)) : List Char :=
  List.intercalate sep l

/-- `parseInt` on a non-empty run of decimal digits. -/
def parseDigits (l : List Char) : ℕ :=
  l.foldl (fun n c => n * 10 + (c.toNat - 48)) 0

/-- JS `Number.prototype.toString` for a natural number. -/
def natToChars (n : ℕ) : List Char := (Nat.repr n).data

/-- An ASCII letter. -/
def isAsciiAlpha (c : Char) : Bool :=
  ('a' ≤ c && c ≤ 'z') || ('A' ≤ c && c ≤ 'Z')

/-- A decimal digit. -/
def isDigitChar (c : Char) : Bool := '0' ≤ c && c ≤ '9'

/-- Hex digit used by `encodeURIComponent` (JS emits uppercase). -/
def hexDigit (n : ℕ) : Char :=
  if n < 10 then Char.ofNat (48 + n) else Char.ofNat (55 + n)

/-- UTF-8 bytes of a character (standard 1–4 byte encoding). -/
def utf8Bytes (c : Char) : List ℕ :=
  let n := c.toNat
  if n < 128 then [n]
  else if n < 2048 then [192 + n / 64, 128 + n % 64]
  else if n < 65536 then [224 + n / 4096, 128 + (n / 64) % 64, 128 + n % 64]
  else [240 + n / 262144, 128 + (n / 4096) % 64, 128 + (n / 64) % 64, 128 + n % 64]

/-- A character `encodeURIComponent` leaves unescaped:
`A–Z a–z 0–9 - _ . ! ~ * ' ( )`. -/
def uriUnreserved (c : Char) : Bool :=
  isAsciiAlpha c || isDigitChar c ||
  c = '-' || c = '_' || c = '.' || c = '!' || c = '~' || c = '*' ||
  c = apos || c = '(' || c = ')'

/-- JS `encodeURIComponent`: percent-encode the UTF-8 bytes of every
character outside the unreserved set. -/
def encodeURIComponent (s : List Char) : List Char :=
  s.flatMap fun c =>
    if uriUnreserved c then [c]
    else (utf8Bytes c).flatMap fun b => ['%', hexDigit (b / 16), hexDigit (b % 16)]

/-! ## The Soundex phonetic coder

Embeds `soundex` from `src/server/enhancedSemanticSearch.ts` (lines 22–47);
the identical function also appears in the `part_002` and `part_006`
snapshots. -/

/-- The consonant-class table of `soundex` (`codes[...] || '0'`). -/
def soundexCode (c : Char) : Char :=
  if c = 'B' || c = 'F' || c = 'P' || c = 'V' then '1'
  else if c = 'C' || c = 'G' || c = 'J' || c = 'K' || c = 'Q' || c = 'S' ||
          c = 'X' || c = 'Z' then '2'
  else if c = 'D' || c = 'T' then '3'
  else if c = 'L' then '4'
  else if c = 'M' || c = 'N' then '5'
  else if c = 'R' then '6'
  else '0'

/-- `str.toUpperCase().replace(/[^A-Z]/g, '')`: uppercase, keep `A`–`Z`. -/
def soundexFilter (s : List Char) : List Char :=
  (jsToUpper s).filter (fun c => 'A' ≤ c && c ≤ 'Z')

/-- The `for` loop of `soundex`: scan the remaining letters, appending each
new nonzero code that differs from the previous one, while the code is
shorter than 4 characters. -/
def soundexLoop : List Char → List Char → Char → List Char
  | [], code, _ => code
  | c :: rest, code, prev =>
    if code.length < 4 then
      let cur := soundexCode c
      let code' := if cur ≠ '0' && cur ≠ prev then code ++ [cur] else code
      let prev' := if cur ≠ '0' then cur else prev
      soundexLoop rest code' prev'
    else code

/-- `soundex` from `src/server/enhancedSemanticSearch.ts` lines 22–47. -/
def soundex (str : List Char) : List Char :=
  let s := soundexFilter str
  match s with
  | [] => jstr "0000"
  | first :: rest =>
    (soundexLoop rest [first] (soundexCode first) ++ jstr "0000").take 4

/-- `phoneticMatch` (same file, lines 49–51): equality of Soundex codes. -/
def phoneticMatch (w1 w2 : List Char) : Bool := soundex w1 = soundex w2

/-! ## Levenshtein distance

The `part_002` bundle contains two dynamic-programming implementations of
Levenshtein distance: `levenshtein` (lines 506–526, in its
`enhancedSemanticSearch.ts` section) and `levenshteinDistance`
(lines 935–957, in its `advancedSearch.ts` section).  Both fill a matrix
over prefixes with the recurrence
`matrix[i][j] = min(matrix[i-1][j]+1, matrix[i][j-1]+1, matrix[i-1][j-1]+cost)`,
where the cost compares the last characters `a[j-1]`, `b[i-1]` of the two
prefixes.  The entry `matrix[i][j]` therefore satisfies exactly the
head-first recurrence of `Levenshtein.levenshtein` with unit costs applied
to the *reversed* prefixes, and the returned corner entry is
`Levenshtein.levenshtein defaultCost a.reverse b.reverse`. -/

/-- The matrix computed by both JS implementations (see section comment). -/
def levMatrix (a b : List Char) : ℕ :=
  levenshtein Levenshtein.defaultCost a.reverse b.reverse

namespace Spell

/-- `levenshtein` from the `server/enhancedSemanticSearch.ts` section of
`src/unnamed/part_002` (lines 506–526): lowercase both strings, shortcut
the equal and empty cases, otherwise run the DP matrix. -/
def levenshtein (a b : List Char) : ℕ :=
  let a' := jsToLower a
  let b' := jsToLower b
  if a' = b' then 0
  else if a'.length = 0 then b'.length
  else if b'.length = 0 then a'.length
  else levMatrix a' b'

end Spell

namespace Adv

/-- `levenshteinDistance` from the `server/advancedSearch.ts` section of
`src/unnamed/part_002` (lines 935–957): the bare DP matrix, no case
normalisation and no shortcuts. -/
def levenshteinDistance (a b : List Char) : ℕ := levMatrix a b

/-- `fuzzyMatch` from the same file (lines 958–963).  In JS,
`similarity = 1 - distance / maxLength` is `NaN` when both strings are
empty (`0/0`), and `NaN >= threshold` is false; the `maxLength = 0` test
renders that. -/
def fuzzyMatch (query target : List Char) (threshold : ℚ) : Bool :=
  let distance := levenshteinDistance (jsToLower query) (jsToLower target)
  let maxLength := max query.length target.length
  if maxLength = 0 then false
  else decide ((1 : ℚ) - (distance : ℚ) / (maxLength : ℚ) ≥ threshold)

end Adv

/-! ## The spelling corrector

Embeds `COMMON_WORDS` (lines 527–665), `SKIP_WORDS` (lines 666–749) and
`correctSpelling` (lines 750–780) from the `server/enhancedSemanticSearch.ts`
section of `src/unnamed/part_002`.  `COMMON_WORDS` is kept in source order,
since both the nearest-neighbour loop and the phonetic-fallback loop scan
`Object.entries` in insertion order. -/

namespace Spell

/-- The static misspelling dictionary `COMMON_WORDS` (key, value) pairs. -/
def COMMON_WORDS : List (List Char × List Char) := [
  (jstr "puzle", jstr "puzzle"),
  (jstr "puzel", jstr "puzzle"),
  (jstr "puzzles", jstr "puzzle"),
  (jstr "puzles", jstr "puzzle"),
  (jstr "puzzl", jstr "puzzle"),
  (jstr "puzzel", jstr "puzzle"),
  (jstr "imges", jstr "images"),
  (jstr "imags", jstr "images"),
  (jstr "imagse", jstr "images"),
  (jstr "iamges", jstr "images"),
  (jstr "pictres", jstr "pictures"),
  (jstr "picutres", jstr "pictures"),
  (jstr "picturs", jstr "pictures"),
  (jstr "chrat", jstr "chart"),
  (jstr "chrts", jstr "charts"),
  (jstr "chrats", jstr "charts"),
  (jstr "cahrt", jstr "chart"),
  (jstr "animls", jstr "animals"),
  (jstr "anmals", jstr "animals"),
  (jstr "animales", jstr "animals"),
  (jstr "animlas", jstr "animals"),
  (jstr "monkey", jstr "monkey"),
  (jstr "monkeys", jstr "monkey"),
  (jstr "monky", jstr "monkey"),
  (jstr "munkey", jstr "monkey"),
  (jstr "lion", jstr "lion"),
  (jstr "lions", jstr "lion"),
  (jstr "tiger", jstr "tiger"),
  (jstr "tigers", jstr "tiger"),
  (jstr "elephant", jstr "elephant"),
  (jstr "elephants", jstr "elephant"),
  (jstr "elefant", jstr "elephant"),
  (jstr "dog", jstr "dog"),
  (jstr "dogs", jstr "dog"),
  (jstr "cat", jstr "cat"),
  (jstr "cats", jstr "cat"),
  (jstr "bird", jstr "bird"),
  (jstr "birds", jstr "bird"),
  (jstr "fish", jstr "fish"),
  (jstr "fishes", jstr "fish"),
  (jstr "rabbit", jstr "rabbit"),
  (jstr "rabbits", jstr "rabbit"),
  (jstr "cow", jstr "cow"),
  (jstr "horse", jstr "horse"),
  (jstr "bear", jstr "bear"),
  (jstr "snake", jstr "snake"),
  (jstr "frog", jstr "frog"),
  (jstr "deer", jstr "deer"),
  (jstr "flower", jstr "flower"),
  (jstr "flowers", jstr "flowers"),
  (jstr "tree", jstr "tree"),
  (jstr "trees", jstr "trees"),
  (jstr "maths", jstr "maths"),
  (jstr "mathss", jstr "maths"),
  (jstr "mats", jstr "maths"),
  (jstr "mahs", jstr "maths"),
  (jstr "scince", jstr "science"),
  (jstr "sceince", jstr "science"),
  (jstr "sciense", jstr "science"),
  (jstr "sicence", jstr "science"),
  (jstr "englsh", jstr "english"),
  (jstr "engish", jstr "english"),
  (jstr "enlgish", jstr "english"),
  (jstr "exm", jstr "exam"),
  (jstr "exams", jstr "exam"),
  (jstr "exma", jstr "exam"),
  (jstr "examm", jstr "exam"),
  (jstr "tps", jstr "tips"),
  (jstr "tipss", jstr "tips"),
  (jstr "tisp", jstr "tips"),
  (jstr "workshet", jstr "worksheet"),
  (jstr "workseet", jstr "worksheet"),
  (jstr "worksheets", jstr "worksheets"),
  (jstr "worksehet", jstr "worksheet"),
  (jstr "worsheet", jstr "worksheet"),
  (jstr "sylabus", jstr "syllabus"),
  (jstr "sillabus", jstr "syllabus"),
  (jstr "syllbus", jstr "syllabus"),
  (jstr "syllabu", jstr "syllabus"),
  (jstr "fruts", jstr "fruits"),
  (jstr "fruist", jstr "fruits"),
  (jstr "frutis", jstr "fruits"),
  (jstr "fruite", jstr "fruits"),
  (jstr "fruit", jstr "fruit"),
  (jstr "fruits", jstr "fruits"),
  (jstr "fruites", jstr "fruits"),
  (jstr "smrat", jstr "smart"),
  (jstr "samrt", jstr "smart"),
  (jstr "smrt", jstr "smart"),
  (jstr "wll", jstr "wall"),
  (jstr "wal", jstr "wall"),
  (jstr "walll", jstr "wall"),
  (jstr "telgu", jstr "telugu"),
  (jstr "telegu", jstr "telugu"),
  (jstr "telugue", jstr "telugu"),
  (jstr "poam", jstr "poem"),
  (jstr "pome", jstr "poem"),
  (jstr "poams", jstr "poems"),
  (jstr "pomes", jstr "poems"),
  (jstr "clas", jstr "class"),
  (jstr "clss", jstr "class"),
  (jstr "classs", jstr "class"),
  (jstr "bnk", jstr "bank"),
  (jstr "bnak", jstr "bank"),
  (jstr "bakn", jstr "bank"),
  (jstr "mcqs", jstr "mcq"),
  ((jstr "mcq" ++ [apos] ++ jstr "s"), jstr "mcq"),
  (jstr "mcss", jstr "mcq"),
  (jstr "resourse", jstr "resource"),
  (jstr "resorce", jstr "resource"),
  (jstr "resourc", jstr "resource"),
  (jstr "vido", jstr "video"),
  (jstr "vidoe", jstr "video"),
  (jstr "vidoes", jstr "videos"),
  (jstr "vidos", jstr "videos")]

/-- The stop-word set `SKIP_WORDS` (duplicates as in the source; a set,
only membership matters). -/
def SKIP_WORDS : List (List Char) := [
  jstr "how",
  jstr "are",
  jstr "you",
  jstr "what",
  jstr "is",
  jstr "the",
  jstr "a",
  jstr "an",
  jstr "to",
  jstr "for",
  jstr "in",
  jstr "on",
  jstr "at",
  jstr "it",
  jstr "this",
  jstr "that",
  jstr "can",
  jstr "do",
  jstr "does",
  jstr "did",
  jstr "will",
  jstr "would",
  jstr "could",
  jstr "should",
  jstr "be",
  jstr "been",
  jstr "being",
  jstr "have",
  jstr "has",
  jstr "had",
  jstr "was",
  jstr "were",
  jstr "am",
  jstr "is",
  jstr "are",
  jstr "i",
  jstr "me",
  jstr "my",
  jstr "we",
  jstr "us",
  jstr "our",
  jstr "your",
  jstr "they",
  jstr "them",
  jstr "their",
  jstr "he",
  jstr "she",
  jstr "hi",
  jstr "hello",
  jstr "hey",
  jstr "good",
  jstr "morning",
  jstr "evening",
  jstr "night",
  jstr "help",
  jstr "please",
  jstr "find",
  jstr "search",
  jstr "show",
  jstr "give",
  jstr "get",
  jstr "want",
  jstr "need",
  jstr "like",
  jstr "about",
  jstr "class",
  jstr "grade",
  jstr "level",
  jstr "subject",
  jstr "topic",
  jstr "chapter",
  jstr "lesson",
  jstr "and",
  jstr "or",
  jstr "but",
  jstr "if",
  jstr "then",
  jstr "so",
  jstr "because",
  jstr "with",
  jstr "from",
  jstr "of"]

/-- One iteration of the nearest-neighbour loop of `correctSpelling`:
update `(bestMatch, bestDistance)` with the distances from `word` to the
entry's misspelled key and to its correct value (strict improvement only,
starting from distance budget 2). -/
def nearestStep (word : List Char) (acc : List Char × ℕ) (entry : List Char × List Char) :
    List Char × ℕ :=
  let d1 := levenshtein word entry.1
  let acc1 := if d1 < acc.2 then (entry.2, d1) else acc
  let d2 := levenshtein word entry.2
  if d2 < acc1.2 then (entry.2, d2) else acc1

/-- The body of `correctSpelling`'s `words.map` callback: skip stop words
and short words, take an exact dictionary hit, otherwise the nearest
dictionary neighbour within distance < 2, otherwise (for words longer
than 3 characters) the first dictionary value with the same Soundex code,
otherwise the word itself. -/
def correctWord (word : List Char) : List Char :=
  if SKIP_WORDS.contains word || word.length ≤ 2 then word
  else
    match COMMON_WORDS.lookup word with
    | some v => v
    | none =>
      let best := COMMON_WORDS.foldl (nearestStep word) (word, 2)
      if best.1 = word && decide (word.length > 3) then
        match COMMON_WORDS.find? (fun e => soundex e.2 = soundex word) with
        | some e => e.2
        | none => best.1
      else best.1

/-- `correctSpelling` from `src/unnamed/part_002` lines 750–780: lowercase,
split on whitespace, correct each word, re-join with single spaces. -/
def correctSpelling (query : List Char) : List Char :=
  jsJoin (jstr " ") ((jsSplitWs (jsToLower query)).map correctWord)

end Spell

/-! ## Shared data model of the priority search -/

/-- The `category` field of a `SearchResult` (its string values in the JS
source are `"one_click"`, `"image_bank"`, `"class_subject"`, `"section"`,
`"search"`, `"none"`). -/
inductive SCategory where
  | one_click | image_bank | class_subject | sectionCat | search | none
deriving DecidableEq, Repr

/-- The `SearchResult` interface of `src/server/enhancedSemanticSearch.ts`
lines 74–80. -/
structure SearchResult where
  name : List Char
  description : List Char
  url : List Char
  category : SCategory
  confidence : ℚ
deriving DecidableEq, Repr

/-- One entry of the knowledge base's one-click resources list. -/
structure OneClick where
  name : List Char
  url : List Char
  keywords : List (List Char)
deriving DecidableEq, Repr

/-- One subject of the knowledge base's `grades.subjects` table. -/
structure SubjectData where
  code : List Char
  keywords : List (List Char)
deriving DecidableEq, Repr

/-- One top-level section of the knowledge base. -/
structure SectionData where
  url : List Char
  description : List Char
  keywords : List (List Char)
deriving DecidableEq, Repr

/-- Insert into a list sorted by descending confidence, before the first
element of smaller-or-equal confidence. -/
def insertByConf (r : SearchResult) : List SearchResult → List SearchResult
  | [] => [r]
  | s :: rest =>
    if r.confidence ≥ s.confidence then r :: s :: rest else s :: insertByConf r rest

/-- JS `results.sort((a, b) => b.confidence - a.confidence)`: a stable sort,
descending by confidence (JS engines' `Array.prototype.sort` is stable, and
a stable sort with a fixed comparator has a unique result, so insertion
sort renders it faithfully). -/
def sortByConfDesc : List SearchResult → List SearchResult
  | [] => []
  | r :: rest => insertByConf r (sortByConfDesc rest)

/-- `query.charAt(0).toUpperCase() + query.slice(1)`. -/
def capitalizeFirst : List Char → List Char
  | [] => []
  | c :: cs => Char.toUpper c :: cs

/-- The JS test `/^[a-zA-Z0-9\s]+$/.test(s)`: non-empty, all characters
alphanumeric or whitespace. -/
def testAlnumSpace (s : List Char) : Bool :=
  !s.isEmpty && s.all (fun c => isAsciiAlpha c || isDigitChar c || jsIsWs c)

/-- The JS test `/[aeiou]/i.test(s)` on a single character. -/
def isVowelI (c : Char) : Bool :=
  (jstr "aeiouAEIOU").contains c

/-! ## Regex models

The class-number extraction regexes, modelled as leftmost-match scanners:
`findFirstMatch m s` applies the anchored matcher `m` at every start
position of `s`, left to right, and returns the first capture.  All
patterns carry the `/i` flag; every caller passes lowercased text (or text
whose matching is unaffected by case), which the matchers assume. -/

/-- Leftmost match: try the anchored matcher at each suffix, left to right. -/
def findFirstMatch (m : List Char → Option (List Char)) : List Char → Option (List Char)
  | [] => m []
  | c :: rest =>
    match m (c :: rest) with
    | some r => some r
    | Option.none => findFirstMatch m rest

/-- Does one of the given literals start here? -/
def startsWithOneOf (ps : List (List Char)) (s : List Char) : Bool :=
  ps.any (fun p => p.isPrefixOf s)

/-- Anchored matcher for `/age\s*(\d+)/i`: literal `age`, optional
whitespace, then the captured digit run. -/
def matchAgeAt : List Char → Option (List Char)
  | 'a' :: 'g' :: 'e' :: rest =>
    let ds := (rest.dropWhile jsIsWs).takeWhile isDigitChar
    if ds.isEmpty then Option.none else some ds
  | _ => Option.none

/-- Anchored matcher for `/(\d+)(?:st|nd|rd|th)?\s*(?:class|grade|std)/i`:
captured digit run, optional ordinal suffix, optional whitespace, then one
of the class keywords. -/
def classPat1At (s : List Char) : Option (List Char) :=
  let ds := s.takeWhile isDigitChar
  if ds.isEmpty then Option.none
  else
    let rest := s.drop ds.length
    let kwAt := fun (r : List Char) =>
      startsWithOneOf [jstr "class", jstr "grade", jstr "std"] (r.dropWhile jsIsWs)
    let ord := startsWithOneOf [jstr "st", jstr "nd", jstr "rd", jstr "th"] rest
    if (ord && kwAt (rest.drop 2)) || kwAt rest then some ds else Option.none

/-- Anchored matcher for `/(?:class|grade|std)\s*(\d+)/i`. -/
def classPat2At (s : List Char) : Option (List Char) :=
  [jstr "class", jstr "grade", jstr "std"].findSome? (fun kw =>
    if kw.isPrefixOf s then
      let ds := ((s.drop kw.length).dropWhile jsIsWs).takeWhile isDigitChar
      if ds.isEmpty then Option.none else some ds
    else Option.none)

/-- Anchored matcher for `/grade\s*-?\s*(\d+)/i`. -/
def classPat3At (s : List Char) : Option (List Char) :=
  if (jstr "grade").isPrefixOf s then
    let r := (s.drop 5).dropWhile jsIsWs
    let r2 := match r with
      | '-' :: tl => tl.dropWhile jsIsWs
      | _ => r
    let ds := r2.takeWhile isDigitChar
    if ds.isEmpty then Option.none else some ds
  else Option.none

/-- The `for (const pattern of classPatterns)` loop shared by all variants:
first pattern whose (leftmost) captured value lies in `[1, 10]` wins; a
pattern that matches with an out-of-range value does not stop the loop. -/
def findClassNum (pats : List (List Char → Option (List Char))) (q : List Char) : Option ℕ :=
  match pats with
  | [] => Option.none
  | p :: ps =>
    match findFirstMatch p q with
    | some ds =>
      let v := parseDigits ds
      if 1 ≤ v ∧ v ≤ 10 then some v else findClassNum ps q
    | Option.none => findClassNum ps q

/-! ## The TS source `enhancedSemanticSearch.ts` -/

namespace ESS

/-- `IMAGE_SEARCH_TERMS` from `src/server/enhancedSemanticSearch.ts` lines 4–20. -/
def IMAGE_SEARCH_TERMS : List (List Char) := [
  jstr "animals",
  jstr "animal",
  jstr "lion",
  jstr "tiger",
  jstr "elephant",
  jstr "monkey",
  jstr "cat",
  jstr "dog",
  jstr "bird",
  jstr "fish",
  jstr "flowers",
  jstr "flower",
  jstr "rose",
  jstr "lotus",
  jstr "sunflower",
  jstr "plants",
  jstr "trees",
  jstr "tree",
  jstr "fruits",
  jstr "fruit",
  jstr "apple",
  jstr "mango",
  jstr "banana",
  jstr "vegetables",
  jstr "vegetable",
  jstr "body parts",
  jstr "human body",
  jstr "organs",
  jstr "skeleton",
  jstr "shapes",
  jstr "circle",
  jstr "square",
  jstr "triangle",
  jstr "rectangle",
  jstr "colors",
  jstr "colour",
  jstr "red",
  jstr "blue",
  jstr "green",
  jstr "yellow",
  jstr "vehicles",
  jstr "car",
  jstr "bus",
  jstr "train",
  jstr "plane",
  jstr "airplane",
  jstr "ship",
  jstr "boat",
  jstr "buildings",
  jstr "house",
  jstr "school",
  jstr "hospital",
  jstr "temple",
  jstr "church",
  jstr "mosque",
  jstr "food",
  jstr "water",
  jstr "nature",
  jstr "sky",
  jstr "sun",
  jstr "moon",
  jstr "stars",
  jstr "earth",
  jstr "planet",
  jstr "insects",
  jstr "butterfly",
  jstr "ant",
  jstr "bee",
  jstr "spider",
  jstr "seasons",
  jstr "summer",
  jstr "winter",
  jstr "rain",
  jstr "monsoon",
  jstr "professions",
  jstr "doctor",
  jstr "teacher",
  jstr "farmer",
  jstr "police",
  jstr "soldier",
  jstr "sports",
  jstr "cricket",
  jstr "football",
  jstr "hockey",
  jstr "tennis",
  jstr "musical instruments",
  jstr "guitar",
  jstr "piano",
  jstr "drum",
  jstr "flute",
  jstr "festivals",
  jstr "diwali",
  jstr "holi",
  jstr "christmas",
  jstr "eid"]

/-- The `grades.subjects` table of the knowledge base.  The
`myschool_knowledge_base.json` file imported by the TS source is not in
the tree as a standalone file; its contents are taken from the copy
inlined in the bundles (`src/dist/index.js` lines 474ff, identical in
`src/unnamed/part_002`).  Entries in `Object.entries` (insertion) order. -/
def subjectsEntries : List (List Char × SubjectData) := [
  (jstr "computer", ⟨jstr "unknown", [jstr "computer", jstr "computers", jstr "computing", jstr "it", jstr "technology", jstr "coding"]⟩),
  (jstr "english", ⟨jstr "1", [jstr "english", jstr "language", jstr "grammar", jstr "reading", jstr "writing"]⟩),
  (jstr "evs", ⟨jstr "unknown", [jstr "evs", jstr "environment", jstr "environmental studies", jstr "nature", jstr "science"]⟩),
  (jstr "hindi", ⟨jstr "2", [jstr "hindi", jstr "हिंदी", jstr "language"]⟩),
  (jstr "maths", ⟨jstr "3", [jstr "maths", jstr "mathematics", jstr "math", jstr "numbers", jstr "calculation", jstr "arithmetic", jstr "algebra", jstr "geometry"]⟩),
  (jstr "science", ⟨jstr "4", [jstr "science", jstr "physics", jstr "chemistry", jstr "biology", jstr "experiment"]⟩),
  (jstr "social", ⟨jstr "unknown", [jstr "social", jstr "social studies", jstr "history", jstr "geography", jstr "civics"]⟩),
  (jstr "telugu", ⟨jstr "unknown", [jstr "telugu", jstr "తెలుగు", jstr "language"]⟩)]

/-- The `one_click_resources.resources` list of the knowledge base
(same provenance as `subjectsEntries`). -/
def oneClickResources : List OneClick := [
  ⟨jstr "Smart Wall", jstr "/views/academic/smart-wall?ocrc", [jstr "smart wall", jstr "smartwall", jstr "wall", jstr "classroom decoration", jstr "display", jstr "visual", jstr "posters", jstr "charts", jstr "classroom decor", jstr "decoration"]⟩,
  ⟨jstr "Image Bank", jstr "/views/academic/image-bank?ocrc", [jstr "image bank", jstr "imagebank", jstr "images", jstr "pictures", jstr "photos", jstr "visuals", jstr "graphics"]⟩,
  ⟨jstr "Exam Tips", jstr "/views/academic/result?text=exam tips", [jstr "exam tips", jstr "exam", jstr "test", jstr "preparation", jstr "tips"]⟩,
  ⟨jstr "MCQ Bank", jstr "/views/academic/result?text=mcq", [jstr "mcq", jstr "multiple choice", jstr "questions", jstr "quiz", jstr "test"]⟩,
  ⟨jstr "Visual Worksheets", jstr "/views/academic/result?text=visual worksheets", [jstr "visual worksheets", jstr "worksheets", jstr "activities", jstr "practice"]⟩,
  ⟨jstr "Pictorial Stories", jstr "/views/academic/result?text=pictorial stories", [jstr "pictorial stories", jstr "stories", jstr "picture stories", jstr "reading"]⟩]

/-- The top-level `sections` entries of the knowledge base (name, url,
description, keywords), in insertion order; the priority search skips the
`academic` entry by name. -/
def sectionsEntries : List (List Char × SectionData) := [
  (jstr "academic", ⟨jstr "/views/academic", jstr "Academic resources organized by grade and subject", [jstr "academic", jstr "study", jstr "learn", jstr "education", jstr "school", jstr "class", jstr "grade", jstr "subject"]⟩),
  (jstr "early_career", ⟨jstr "/views/early-career", jstr "4200+ read aloud stories for teaching & learning to impart value education", [jstr "early career", jstr "career", jstr "stories", jstr "read aloud", jstr "value education", jstr "moral stories"]⟩),
  (jstr "edutainment", ⟨jstr "/views/edutainment", jstr "Educational entertainment resources", [jstr "edutainment", jstr "entertainment", jstr "fun", jstr "games", jstr "activities", jstr "learning games"]⟩),
  (jstr "print_rich", ⟨jstr "/views/print-rich", jstr "Print-rich environment resources", [jstr "print rich", jstr "printing", jstr "publishing", jstr "materials", jstr "resources"]⟩),
  (jstr "maker", ⟨jstr "/views/maker", jstr "Maker education resources", [jstr "maker", jstr "diy", jstr "create", jstr "build", jstr "hands-on", jstr "projects"]⟩),
  (jstr "info_hub", ⟨jstr "/views/info-hub", jstr "Information hub with various resources", [jstr "info hub", jstr "information", jstr "resources", jstr "help"]⟩)]

/-- `BASE_URL` (line 82). -/
def BASE_URL : List Char := jstr "https://portal.myschoolct.com"

/-- `fuzzyMatch` from `src/server/enhancedSemanticSearch.ts` lines 53–72:
1 on equality, 0.8 on containment either way, otherwise the fraction of the
shorter string's characters that occur anywhere in the longer string. -/
def fuzzyMatch (str1 str2 : List Char) : ℚ :=
  let s1 := jsToLower str1
  let s2 := jsToLower str2
  if s1 = s2 then 1
  else if jsIncludes s1 s2 || jsIncludes s2 s1 then 0.8
  else
    let longer := if s1.length > s2.length then s1 else s2
    let shorter := if s1.length > s2.length then s2 else s1
    if longer.length = 0 then 1
    else ((shorter.countP (fun c => longer.contains c) : ℚ)) / ((longer.length : ℚ))

/-- `isImageSearchTerm` (lines 84–95). -/
def isImageSearchTerm (query : List Char) : Bool :=
  let queryLower := jsTrim (jsToLower query)
  let queryWords := jsSplitWs queryLower
  IMAGE_SEARCH_TERMS.any (fun term =>
    queryLower = term || jsIncludes queryLower term ||
    queryWords.any (fun word =>
      word = term || decide (fuzzyMatch word term > (0.7 : ℚ)) || phoneticMatch word term))

/-- `calculateSimilarity` (lines 97–121): the weighted keyword score; all
increments are integers, so the score is a natural number. -/
def calculateSimilarity (query : List Char) (keywords : List (List Char)) : ℕ :=
  let queryLower := jsToLower query
  let queryWords := (jsSplitWs queryLower).filter (fun w => w.length > 1)
  if queryWords.length = 0 then 0
  else
    keywords.foldl (fun score keyword =>
      let keywordLower := jsToLower keyword
      let score := score +
        (if queryLower = keywordLower then 10
         else if jsIncludes queryLower keywordLower || jsIncludes keywordLower queryLower then 5
         else 0)
      queryWords.foldl (fun score word =>
        if word.length > 2 then
          if jsIncludes keywordLower word then score + 2
          else if phoneticMatch word keywordLower then score + 3
          else if decide (fuzzyMatch word keywordLower > (0.6 : ℚ)) then score + 2
          else score
        else score) score) 0

/-- The record returned by `extractClassAndSubject`. -/
structure ExtractResult where
  classNum : Option ℕ
  subject : Option (List Char)
  lastWord : Option (List Char)
deriving DecidableEq, Repr

/-- `extractClassAndSubject` (lines 123–159): an `age N` match with
`5 ≤ N ≤ 15` returns `classNum = N - 5` at once; otherwise the three class
patterns are tried with the `[1, 10]` gate, the best-scoring subject is
kept if its score exceeds 3, and the query's last word is reported. -/
def extractClassAndSubject (query : List Char) : ExtractResult :=
  let queryLower := jsTrim (jsToLower query)
  let words := jsSplitWs queryLower
  let ageResult : Option ExtractResult :=
    match findFirstMatch matchAgeAt queryLower with
    | some ds =>
      let age := parseDigits ds
      if 5 ≤ age ∧ age ≤ 15 then some ⟨some (age - 5), Option.none, Option.none⟩
      else Option.none
    | Option.none => Option.none
  match ageResult with
  | some r => r
  | Option.none =>
    let classNum := findClassNum [classPat1At, classPat2At, classPat3At] queryLower
    let best := subjectsEntries.foldl
      (fun (acc : Option (List Char) × ℕ) entry =>
        let score := calculateSimilarity queryLower entry.2.keywords
        if score > acc.2 then (some entry.1, score) else acc)
      (Option.none, 0)
    ⟨classNum, if best.2 > 3 then best.1 else Option.none, words.getLast?⟩

/-- The tier-1 result (`category: "image_bank"`, lines 169–175). -/
def imageBankResult (query : List Char) : SearchResult :=
  { name := jstr "Image Bank: " ++ query,
    description := jstr "Search for \"" ++ query ++
      jstr "\" images in One Click Resource Centre - Image Bank (80,000+ educational images)",
    url := BASE_URL ++ jstr "/views/sections/image-bank?search=" ++ encodeURIComponent query,
    category := .image_bank,
    confidence := 0.95 }

/-- A tier-2 one-click hit (lines 183–189). -/
def oneClickResult (r : OneClick) (score : ℕ) : SearchResult :=
  { name := r.name,
    description := jsJoin (jstr ", ") r.keywords,
    url := BASE_URL ++ r.url,
    category := .one_click,
    confidence := min ((score : ℚ) / 10) 1.0 }

/-- The class+subject result (lines 202–209). -/
def classSubjectResult (n : ℕ) (subj : List Char) (code : List Char) : SearchResult :=
  { name := jstr "Class " ++ natToChars n ++ jstr " " ++ capitalizeFirst subj,
    description := jstr "Access Class " ++ natToChars n ++ jstr " " ++ subj ++ jstr " curriculum",
    url := BASE_URL ++ jstr "/views/academic/class/class-" ++ natToChars n ++
      jstr "?main=1&mu=" ++ code,
    category := .class_subject,
    confidence := 0.95 }

/-- The class+last-word search result (lines 212–219). -/
def classSearchResult (n : ℕ) (lw : List Char) : SearchResult :=
  { name := jstr "Class " ++ natToChars n ++ jstr " Search: " ++ lw,
    description := jstr "Searching for " ++ lw ++ jstr " in Class " ++ natToChars n,
    url := BASE_URL ++ jstr "/views/academic/class/class-" ++ natToChars n ++
      jstr "?search=" ++ encodeURIComponent lw,
    category := .class_subject,
    confidence := 0.9 }

/-- The class-only result (lines 221–227). -/
def classOnlyResult (n : ℕ) : SearchResult :=
  { name := jstr "Class " ++ natToChars n ++ jstr " Resources",
    description := jstr "Access all Class " ++ natToChars n ++ jstr " resources",
    url := BASE_URL ++ jstr "/views/academic/class/class-" ++ natToChars n,
    category := .class_subject,
    confidence := 0.85 }

/-- A tier-4 section result (lines 238–244). -/
def sectionResult (nm : List Char) (sd : SectionData) (score : ℕ) : SearchResult :=
  { name := jsJoin (jstr " ") ((jsSplitChar '_' nm).map capitalizeFirst),
    description := sd.description,
    url := BASE_URL ++ sd.url,
    category := .sectionCat,
    confidence := min ((score : ℚ) / 10) 0.8 }

/-- The tier-5 generic search result (lines 252–258). -/
def searchResult (query : List Char) : SearchResult :=
  { name := jstr "Search: " ++ query,
    description := jstr "Searching for \"" ++ query ++ jstr "\" in Academic Resources",
    url := BASE_URL ++ jstr "/views/sections/image-bank?search=" ++ encodeURIComponent query,
    category := .search,
    confidence := 0.5 }

/-- The terminal fallback (lines 262–268). -/
def fallbackResult : SearchResult :=
  { name := jstr "Browse Academic Resources",
    description := jstr "Explore all academic resources, classes, and subjects",
    url := BASE_URL ++ jstr "/views/academic",
    category := .none,
    confidence := 0 }

/-- The class tier (lines 196–229).  JS `if (classNum)` is false for both
`null` and `0`, so `classNum = 0` (an `age 5` hit) skips the whole tier.
A subject whose code is `"unknown"` produces nothing (the `else if` chain
belongs to `if (subject)`), and the last-word branch requires a truthy
`lastWord` differing from the class number and from the literal class
keywords. -/
def classTier (e : ExtractResult) : List SearchResult :=
  match e.classNum with
  | Option.none => []
  | some n =>
    if n = 0 then []
    else
      match e.subject with
      | some subj =>
        (match subjectsEntries.lookup subj with
         | some sd => if sd.code ≠ jstr "unknown" then [classSubjectResult n subj sd.code] else []
         | Option.none => [])
      | Option.none =>
        match e.lastWord with
        | some lw =>
          if lw ≠ [] && lw ≠ natToChars n &&
              !([jstr "class", jstr "grade", jstr "std"].contains lw)
          then [classSearchResult n lw]
          else [classOnlyResult n]
        | Option.none => [classOnlyResult n]

/-- The tier-2 hit list (the `results` array right after the one-click
loop, lines 179–191): resources whose similarity score exceeds 6. -/
def oneClickHits (queryLower : List Char) : List SearchResult :=
  oneClickResources.filterMap (fun r =>
    let score := calculateSimilarity queryLower r.keywords
    if score > 6 then some (oneClickResult r score) else Option.none)

/-- The tier-4 hit list (lines 234–246): non-academic sections whose
similarity score exceeds 4. -/
def sectionHits (queryLower : List Char) : List SearchResult :=
  sectionsEntries.filterMap (fun entry =>
    if entry.1 = jstr "academic" then Option.none
    else
      let score := calculateSimilarity queryLower entry.2.keywords
      if score > 4 then some (sectionResult entry.1 entry.2 score) else Option.none)

/-- `performPrioritySearch` from `src/server/enhancedSemanticSearch.ts`
lines 161–269: image tier, then one-click (score > 6), then class tiers,
then sections (score > 4), then generic search, then the terminal
fallback; each tier that produces results returns at once (top result
only). -/
def performPrioritySearch (query : List Char) : List SearchResult :=
  let queryLower := jsTrim (jsToLower query)
  let meaningless := decide (queryLower.length < 2) || !(testAlnumSpace queryLower)
  if isImageSearchTerm query then [imageBankResult query]
  else
    let hits1 := oneClickHits queryLower
    if hits1.length > 0 then (sortByConfDesc hits1).take 1
    else
      let classHits := classTier (extractClassAndSubject query)
      if classHits.length > 0 then classHits.take 1
      else
        let hits4 := sectionHits queryLower
        if hits4.length > 0 then (sortByConfDesc hits4).take 1
        else if !meaningless && queryLower.length ≥ 3 then [searchResult query]
        else [fallbackResult]

end ESS

/-! ## The `part_001` bundle variant -/

namespace P001

/-- The `grades.subjects` table of the knowledge base inlined in
`src/unnamed/part_001` (lines 1856–1917). -/
def subjectsEntries : List (List Char × SubjectData) := [
  (jstr "computer", ⟨jstr "com", [jstr "computer", jstr "computers", jstr "computing", jstr "coding", jstr "programming"]⟩),
  (jstr "english", ⟨jstr "eng", [jstr "english", jstr "grammar"]⟩),
  (jstr "evs", ⟨jstr "evs", [jstr "evs", jstr "environmental studies", jstr "environment"]⟩),
  (jstr "hindi", ⟨jstr "hin", [jstr "hindi"]⟩),
  (jstr "maths", ⟨jstr "mat", [jstr "maths", jstr "mathematics", jstr "math"]⟩),
  (jstr "science", ⟨jstr "sci", [jstr "science", jstr "physics", jstr "chemistry", jstr "biology"]⟩),
  (jstr "social", ⟨jstr "soc", [jstr "social", jstr "social studies", jstr "history", jstr "geography", jstr "civics"]⟩),
  (jstr "telugu", ⟨jstr "tel", [jstr "telugu"]⟩)]

/-- The `one_click_resources.resources` list inlined in `src/unnamed/part_001`. -/
def oneClickResources : List OneClick := [
  ⟨jstr "Smart Wall", jstr "/views/academic/smart-wall?ocrc", [jstr "smart wall", jstr "smartwall", jstr "class decoration", jstr "classroom decoration"]⟩,
  ⟨jstr "Image Bank", jstr "/views/sections/image-bank", [jstr "image bank", jstr "imagebank"]⟩,
  ⟨jstr "Exam Tips", jstr "/views/academic/result?text=exam tips", [jstr "exam tips", jstr "examtips"]⟩,
  ⟨jstr "MCQ Bank", jstr "/views/academic/result?text=mcq", [jstr "mcq bank", jstr "mcqbank", jstr "mcq"]⟩,
  ⟨jstr "Visual Worksheets", jstr "/views/academic/result?text=visual worksheets", [jstr "visual worksheets", jstr "visual worksheet"]⟩,
  ⟨jstr "Pictorial Stories", jstr "/views/academic/result?text=pictorial stories", [jstr "pictorial stories", jstr "pictorial story"]⟩]

/-- `BASE_URL` of the bundle. -/
def BASE_URL : List Char := jstr "https://portal.myschoolct.com"

/-- `isExactOneClickMatch` (`src/unnamed/part_001` lines 1920–1928): the
query equals a keyword exactly, or equals it after deleting spaces
(`split(" ").join("")`). -/
def isExactOneClickMatch (query : List Char) (keywords : List (List Char)) : Bool :=
  let qLower := jsTrim (jsToLower query)
  keywords.any (fun kw =>
    let kwLower := jsToLower kw
    qLower = kwLower ||
      jsJoin [] (jsSplitChar ' ' qLower) = jsJoin [] (jsSplitChar ' ' kwLower))

/-- `extractClassNumber` (lines 1929–1939): two class patterns with the
`[1, 10]` gate (the `/i` flag is rendered by lowercasing the query, which
leaves digit and whitespace matching unchanged). -/
def extractClassNumber (query : List Char) : Option ℕ :=
  findClassNum [classPat1At, classPat2At] (jsToLower query)

/-- `extractSubject` (lines 1940–1949): first subject owning a keyword that
occurs in the lowercased query. -/
def extractSubject (query : List Char) : Option (List Char) :=
  let qLower := jsToLower query
  subjectsEntries.findSome? (fun entry =>
    entry.2.keywords.findSome? (fun kw =>
      if jsIncludes qLower (jsToLower kw) then some entry.1 else Option.none))

/-- `isMeaningless` (lines 1950–1960): after trimming and lowercasing —
length < 2, or no letter, or no vowel, or (only when the length is < 6) one
of the keyboard-mash substrings occurs. -/
def isMeaningless (q : List Char) : Bool :=
  let t := jsToLower (jsTrim q)
  if t.length < 2 then true
  else if !(t.any isAsciiAlpha) then true
  else if !(t.any isVowelI) then true
  else if t.length < 6 then
    [jstr "xyz", jstr "qwer", jstr "asdf", jstr "zxcv", jstr "hjkl", jstr "bnm"].any
      (fun g => jsIncludes t g)
  else false

/-- The class+subject result of the bundle's `performPrioritySearch`. -/
def classSubjectResult (n : ℕ) (subj : List Char) (code : List Char) : SearchResult :=
  { name := jstr "Class " ++ natToChars n ++ jstr " " ++ capitalizeFirst subj,
    description := jstr "Access Class " ++ natToChars n ++ jstr " " ++ subj ++ jstr " curriculum",
    url := BASE_URL ++ jstr "/views/academic/class/class-" ++ natToChars n ++
      jstr "?main=1&mu=" ++ code,
    category := .class_subject,
    confidence := 0.95 }

/-- The class-only result of the bundle's `performPrioritySearch`. -/
def classOnlyResult (n : ℕ) : SearchResult :=
  { name := jstr "Class " ++ natToChars n ++ jstr " Resources",
    description := jstr "All Class " ++ natToChars n ++ jstr " resources",
    url := BASE_URL ++ jstr "/views/academic/class/class-" ++ natToChars n,
    category := .class_subject,
    confidence := 0.9 }

/-- The one-click result of the bundle's `performPrioritySearch`. -/
def oneClickResult (r : OneClick) : SearchResult :=
  { name := r.name,
    description := jsJoin (jstr ", ") r.keywords,
    url := BASE_URL ++ r.url,
    category := .one_click,
    confidence := 0.99 }

/-- The terminal fallback of the bundle's `performPrioritySearch`. -/
def fallbackResult : SearchResult :=
  { name := jstr "Browse Academic Resources",
    description := jstr "Explore all resources",
    url := BASE_URL ++ jstr "/views/academic",
    category := .none,
    confidence := 0 }

/-- The generic-search result of the bundle's `performPrioritySearch`
(whose `description` is the mangled string literal of the source,
kept verbatim). -/
def searchResult (query qLower : List Char) : SearchResult :=
  { name := jstr "Search: " ++ query,
    description := jstr "Searching for  + query +  across all resources",
    url := BASE_URL ++ jstr "/views/sections/result?text=" ++ encodeURIComponent qLower,
    category := .search,
    confidence := 0.5 }

/-- `performPrioritySearch` (`src/unnamed/part_001` lines 1961–2009): exact
one-click match first, then the class tier, then the gibberish fallback,
then the generic text search.  There is no image tier and no section tier
in this variant.  JS `if (classNum)` is again false for `null` and `0`
(`extractClassNumber` can in fact only produce `null` or values
in `[1, 10]`). -/
def performPrioritySearch (query : List Char) : List SearchResult :=
  let qLower := jsTrim (jsToLower query)
  match oneClickResources.find? (fun r => isExactOneClickMatch qLower r.keywords) with
  | some r => [oneClickResult r]
  | Option.none =>
    let rest :=
      if isMeaningless query then [fallbackResult]
      else [searchResult query qLower]
    match extractClassNumber query with
    | some n =>
      if n = 0 then rest
      else
        match extractSubject query with
        | some subj =>
          (match subjectsEntries.lookup subj with
           | some sd =>
             if sd.code ≠ jstr "unknown" then [classSubjectResult n subj sd.code]
             else [classOnlyResult n]
           | Option.none => [classOnlyResult n])
        | Option.none => [classOnlyResult n]
    | Option.none => rest

end P001

/-! ## The `part_006` first-document variant -/

namespace P006

/-- Scanner for `/[bcdfghjklmnpqrstvwxyz]{4,}/i`: `k` counts the
consonants matched immediately before the current position. -/
def consRunGo (p : Char → Bool) : List Char → ℕ → Bool
  | [], _ => false
  | c :: rest, k =>
    if p c then (3 ≤ k) || consRunGo p rest (k + 1)
    else consRunGo p rest 0

/-- A consonant letter, either case (the character class
`[bcdfghjklmnpqrstvwxyz]` with the `/i` flag). -/
def isConsonantI (c : Char) : Bool :=
  (jstr "bcdfghjklmnpqrstvwxyz").contains (Char.toLower c)

/-- `isMeaningless` from the first document of `src/unnamed/part_006`
(lines 62–71): like the `part_001` variant but with an additional
four-consecutive-consonants rule, and with the keyboard-mash check applied
at every length (no `length < 6` gate). -/
def isMeaningless (q : List Char) : Bool :=
  let t := jsToLower (jsTrim q)
  if t.length < 2 then true
  else if !(t.any isAsciiAlpha) then true
  else if consRunGo isConsonantI t 0 then true
  else if !(t.any isVowelI) then true
  else
    [jstr "xyz", jstr "qwer", jstr "asdf", jstr "zxcv", jstr "hjkl", jstr "bnm"].any
      (fun g => jsIncludes t g)

end P006

/-- The gibberish rule exactly as the specification claims it (claim C5 /
spec §4.6), written from the claim's words for comparison with the
implementations: on the trimmed lowercased query — length < 2, or no
alphabetic character, or no vowel, or (only when the length is < 6) one of
the keyboard-mashing substrings `qwer`, `asdf`, `zxcv`, `hjkl`, `bnm`,
`xyz` occurs. -/
def meaninglessClaimRule (q : List Char) : Bool :=
  let t := jsToLower (jsTrim q)
  decide (t.length < 2) || !(t.any isAsciiAlpha) || !(t.any isVowelI) ||
    (decide (t.length < 6) &&
      [jstr "qwer", jstr "asdf", jstr "zxcv", jstr "hjkl", jstr "bnm", jstr "xyz"].any
        (fun g => jsIncludes t g))

/-! ## Metric properties of the Levenshtein recurrence -/

theorem levD_nil_left (ys : List Char) :
    levenshtein Levenshtein.defaultCost [] ys = ys.length := by
  induction ys with
  | nil => simp
  | cons y ys ih =>
    rw [levenshtein_nil_cons, ih]
    simp only [Levenshtein.defaultCost_insert, List.length_cons]
    omega

theorem levD_nil_right (xs : List Char) :
    levenshtein Levenshtein.defaultCost xs [] = xs.length := by
  induction xs with
  | nil => simp
  | cons x xs ih =>
    rw [levenshtein_cons_nil, ih]
    simp only [Levenshtein.defaultCost_delete, List.length_cons]
    omega

theorem levD_self (xs : List Char) :
    levenshtein Levenshtein.defaultCost xs xs = 0 := by
  induction xs with
  | nil => simp
  | cons x xs ih =>
    rw [levenshtein_cons_cons]
    simp only [Levenshtein.defaultCost_delete, Levenshtein.defaultCost_insert,
      Levenshtein.defaultCost_substitute, eq_self_iff_true, if_true, ih]
    omega

theorem levD_symm (xs ys : List Char) :
    levenshtein Levenshtein.defaultCost xs ys =
      levenshtein Levenshtein.defaultCost ys xs := by
  induction xs generalizing ys with
  | nil => rw [levD_nil_left, levD_nil_right]
  | cons x xs ihx =>
    induction ys with
    | nil => rw [levD_nil_left, levD_nil_right]
    | cons y ys ihy =>
      rw [levenshtein_cons_cons, levenshtein_cons_cons,
        ihx (y :: ys), ihx ys, ihy]
      simp only [Levenshtein.defaultCost_delete, Levenshtein.defaultCost_insert,
        Levenshtein.defaultCost_substitute]
      have hsub : (if x = y then (0 : ℕ) else 1) = (if y = x then 0 else 1) := by
        simp [eq_comm]
      rw [hsub]
      omega

/-! ## Helper lemmas about the sorting and truncation steps -/

theorem insertByConf_length (r : SearchResult) (l : List SearchResult) :
    (insertByConf r l).length = l.length + 1 := by
  induction l with
  | nil => rfl
  | cons s rest ih =>
    simp only [insertByConf]
    split
    · simp
    · simp [ih]

theorem sortByConfDesc_length (l : List SearchResult) :
    (sortByConfDesc l).length = l.length := by
  induction l with
  | nil => rfl
  | cons r rest ih => simp [sortByConfDesc, insertByConf_length, ih]

theorem mem_insertByConf {x r : SearchResult} {l : List SearchResult}
    (h : x ∈ insertByConf r l) : x = r ∨ x ∈ l := by
  induction l with
  | nil =>
    simp only [insertByConf, List.mem_singleton] at h
    exact Or.inl h
  | cons s rest ih =>
    simp only [insertByConf] at h
    split at h
    · simpa using h
    · rcases List.mem_cons.mp h with h1 | h2
      · exact Or.inr (by simp [h1])
      · rcases ih h2 with h3 | h4
        · exact Or.inl h3
        · exact Or.inr (by simp [h4])

theorem mem_sortByConfDesc {x : SearchResult} {l : List SearchResult}
    (h : x ∈ sortByConfDesc l) : x ∈ l := by
  induction l with
  | nil => simp [sortByConfDesc] at h
  | cons r rest ih =>
    simp only [sortByConfDesc] at h
    rcases mem_insertByConf h with h1 | h2
    · simp [h1]
    · exact List.mem_cons_of_mem _ (ih h2)

theorem take_one_ne_nil {α} {l : List α} (h : 0 < l.length) : l.take 1 ≠ [] := by
  cases l with
  | nil => simp at h
  | cons a t => simp

theorem sort_take_one_ne_nil {l : List SearchResult} (h : 0 < l.length) :
    (sortByConfDesc l).take 1 ≠ [] := by
  apply take_one_ne_nil
  rw [sortByConfDesc_length]
  exact h

/-! ## C1 -/

/-- C1: for every input string `q` — the empty string included — both
embedded versions of `performPrioritySearch` return at least one
`SearchResult`: every branch of the tier chain, down to the terminal
fallback, produces a non-empty list. -/
theorem performPrioritySearch_nonempty (q : List Char) :
    ESS.performPrioritySearch q ≠ [] ∧ P001.performPrioritySearch q ≠ [] := by
  constructor
  · simp only [ESS.performPrioritySearch]
    repeat' split
    all_goals first
      | exact sort_take_one_ne_nil (by assumption)
      | exact take_one_ne_nil (by assumption)
      | simp
  · simp only [P001.performPrioritySearch]
    repeat' split
    all_goals simp

/-! ## Membership lemmas for the tiers of `ESS.performPrioritySearch` -/

theorem score_div_bound {score : ℕ} (h : 6 < score) :
    (0.7 : ℚ) ≤ min ((score : ℚ) / 10) 1 := by
  have h7 : (7 : ℚ) ≤ (score : ℚ) := by exact_mod_cast h
  have h07 : (0.7 : ℚ) = 7 / 10 := by norm_num
  rw [h07]
  apply le_min
  · linarith
  · norm_num

theorem ESS.mem_oneClickHits {r : SearchResult} {ql : List Char}
    (h : r ∈ ESS.oneClickHits ql) :
    r.category = SCategory.one_click ∧ (0.7 : ℚ) ≤ r.confidence ∧ r.confidence ≤ 1 := by
  simp only [ESS.oneClickHits, List.mem_filterMap] at h
  obtain ⟨res, _, heq⟩ := h
  split at heq
  · cases heq
    refine ⟨rfl, score_div_bound (by assumption), ?_⟩
    exact min_le_right _ _
  · cases heq

theorem ESS.mem_sectionHits {r : SearchResult} {ql : List Char}
    (h : r ∈ ESS.sectionHits ql) :
    r.category = SCategory.sectionCat ∧ r.confidence ≤ (0.8 : ℚ) := by
  simp only [ESS.sectionHits, List.mem_filterMap] at h
  obtain ⟨entry, _, heq⟩ := h
  split at heq
  · cases heq
  · split at heq
    · cases heq
      exact ⟨rfl, min_le_right _ _⟩
    · cases heq

theorem ESS.mem_classTier {r : SearchResult} {e : ESS.ExtractResult}
    (h : r ∈ ESS.classTier e) :
    r.category = SCategory.class_subject ∧
      (r.confidence = (0.95 : ℚ) ∨ r.confidence = (0.9 : ℚ) ∨ r.confidence = (0.85 : ℚ)) := by
  simp only [ESS.classTier] at h
  repeat' split at h
  all_goals first
    | (rw [List.mem_singleton] at h; subst h;
       simp [ESS.classSubjectResult, ESS.classSearchResult, ESS.classOnlyResult])
    | simp at h

theorem ESS.pps_mem_spec (q : List Char) (r : SearchResult)
    (h : r ∈ ESS.performPrioritySearch q) :
    (r.category = SCategory.image_bank ∧ r.confidence = (0.95 : ℚ)) ∨
    (r.category = SCategory.one_click ∧ (0.7 : ℚ) ≤ r.confidence ∧ r.confidence ≤ 1) ∨
    (r.category = SCategory.class_subject ∧
       r ∈ ESS.classTier (ESS.extractClassAndSubject q) ∧
       (r.confidence = (0.95 : ℚ) ∨ r.confidence = (0.9 : ℚ) ∨ r.confidence = (0.85 : ℚ))) ∨
    (r.category = SCategory.sectionCat ∧ r.confidence ≤ (0.8 : ℚ)) ∨
    (r.category = SCategory.search ∧ r.confidence = (0.5 : ℚ)) ∨
    (r.category = SCategory.none ∧ r.confidence = 0) := by
  simp only [ESS.performPrioritySearch] at h
  split at h
  · rw [List.mem_singleton] at h
    subst h
    left
    simp [ESS.imageBankResult]
  · split at h
    · have hm := mem_sortByConfDesc (List.mem_of_mem_take h)
      right; left
      exact ESS.mem_oneClickHits hm
    · split at h
      · have hm := List.mem_of_mem_take h
        have hc := ESS.mem_classTier hm
        right; right; left
        exact ⟨hc.1, hm, hc.2⟩
      · split at h
        · have hm := mem_sortByConfDesc (List.mem_of_mem_take h)
          right; right; right; left
          exact ESS.mem_sectionHits hm
        · split at h
          · rw [List.mem_singleton] at h
            subst h
            right; right; right; right; left
            simp [ESS.searchResult]
          · rw [List.mem_singleton] at h
            subst h
            right; right; right; right; right
            simp [ESS.fallbackResult]

/-! ## C4 -/

/-- C4: across all queries, every `one_click` or `class_subject` result of
`ESS.performPrioritySearch` has confidence strictly above any `search`
result's (which is exactly 0.5), and every `search` result's confidence is
strictly above any `none` result's (which is exactly 0). -/
theorem confidence_tier_order (q₁ q₂ : List Char) (r₁ r₂ : SearchResult)
    (h₁ : r₁ ∈ ESS.performPrioritySearch q₁) (h₂ : r₂ ∈ ESS.performPrioritySearch q₂) :
    ((r₁.category = SCategory.one_click ∨ r₁.category = SCategory.class_subject) →
      r₂.category = SCategory.search → r₂.confidence < r₁.confidence) ∧
    (r₁.category = SCategory.search → r₂.category = SCategory.none →
      r₂.confidence < r₁.confidence) := by
  have m₁ := ESS.pps_mem_spec q₁ r₁ h₁
  have m₂ := ESS.pps_mem_spec q₂ r₂ h₂
  constructor
  · rintro hcat hs
    simp only [hs] at m₂
    simp only [reduceCtorEq, false_and, false_or, or_false, true_and] at m₂
    rw [m₂]
    rcases hcat with hc | hc <;> simp only [hc] at m₁ <;>
      simp only [reduceCtorEq, false_and, false_or, or_false, true_and] at m₁
    · linarith [m₁.1]
    · rcases m₁.2 with h | h | h <;> rw [h] <;> norm_num
  · rintro hs hn
    simp only [hs] at m₁
    simp only [reduceCtorEq, false_and, false_or, or_false, true_and] at m₁
    simp only [hn] at m₂
    simp only [reduceCtorEq, false_and, false_or, or_false, true_and] at m₂
    rw [m₁, m₂]
    norm_num

set_option maxRecDepth 20000 in
set_option maxHeartbeats 1000000 in
theorem confidence_tier_order_witness :
    (ESS.searchResult (jstr "qwerty uiop")).confidence < (ESS.classOnlyResult 7).confidence ∧
    ESS.fallbackResult.confidence < (ESS.searchResult (jstr "qwerty uiop")).confidence :=
  ⟨(confidence_tier_order (jstr "7 std") (jstr "qwerty uiop") (ESS.classOnlyResult 7)
      (ESS.searchResult (jstr "qwerty uiop")) (by decide) (by decide)).1 (Or.inr rfl) rfl,
   (confidence_tier_order (jstr "qwerty uiop") (jstr "!!!")
      (ESS.searchResult (jstr "qwerty uiop")) ESS.fallbackResult
      (by decide) (by decide)).2 rfl rfl⟩

/-! ## C10 -/

theorem ESS.classTier_eq_nil_of_zero {e : ESS.ExtractResult}
    (h : e.classNum = some 0) : ESS.classTier e = [] := by
  simp [ESS.classTier, h]

/-- C10: when `extractClassAndSubject` reports `classNum = 0` (as the
`age 5` pattern produces), the JS guard `if (classNum)` treats it as
class-not-found, so no result of `performPrioritySearch` carries the
`class_subject` category — the query falls through to the lower tiers. -/
theorem classNum_zero_skips_class_tier (q : List Char)
    (h : (ESS.extractClassAndSubject q).classNum = some 0) :
    (ESS.performPrioritySearch q).all
      (fun r => r.category != SCategory.class_subject) = true := by
  rw [List.all_eq_true]
  intro r hr
  rcases ESS.pps_mem_spec q r hr with
    ⟨c, _⟩ | ⟨c, _⟩ | ⟨_, hm, _⟩ | ⟨c, _⟩ | ⟨c, _⟩ | ⟨c, _⟩
  · simp [c]
  · simp [c]
  · rw [ESS.classTier_eq_nil_of_zero h] at hm
    simp at hm
  · simp [c]
  · simp [c]
  · simp [c]

set_option maxRecDepth 20000 in
theorem classNum_zero_skips_class_tier_witness :
    (ESS.extractClassAndSubject (jstr "age 5")).classNum = some 0 ∧
    (ESS.performPrioritySearch (jstr "age 5")).all
      (fun r => r.category != SCategory.class_subject) = true :=
  ⟨by decide, classNum_zero_skips_class_tier (jstr "age 5") (by decide)⟩

/-! ## C2 -/

/-- C2 counterexample: `"mcq"` is literally one of the curated MCQ-Bank
keywords, yet `performPrioritySearch` returns the image-bank result — the
TS source evaluates the image tier *before* the one-click tier, and
`"mcq"` phonetically matches the visual term `"mosque"`
(both Soundex to `M200`). -/
theorem priority_order_counterexample :
    ESS.oneClickResources.any (fun r => r.keywords.contains (jstr "mcq")) = true ∧
    (ESS.performPrioritySearch (jstr "mcq")).map SearchResult.category =
      [SCategory.image_bank] :=
  ⟨by decide, by decide⟩

/-- C2 amended: in `enhancedSemanticSearch.ts` the image tier is evaluated
first and wins outright; the one-click tier is only reached when the image
tier fails, and then wins outright; in the `part_001` bundle variant the
exact one-click tier is first (that variant has no image tier at all).
In all cases the engine returns at the first tier that produces a
result. -/
theorem priority_tier_order (q : List Char) :
    (ESS.isImageSearchTerm q = true →
      ESS.performPrioritySearch q = [ESS.imageBankResult q]) ∧
    (ESS.isImageSearchTerm q = false →
      0 < (ESS.oneClickHits (jsTrim (jsToLower q))).length →
      ESS.performPrioritySearch q =
        (sortByConfDesc (ESS.oneClickHits (jsTrim (jsToLower q)))).take 1) ∧
    (∀ r, P001.oneClickResources.find?
        (fun rr => P001.isExactOneClickMatch (jsTrim (jsToLower q)) rr.keywords) = some r →
      P001.performPrioritySearch q = [P001.oneClickResult r]) := by
  refine ⟨?_, ?_, ?_⟩
  · intro h
    simp [ESS.performPrioritySearch, h]
  · intro h hl
    simp [ESS.performPrioritySearch, h, hl]
  · intro r h
    simp [P001.performPrioritySearch, h]

set_option maxRecDepth 20000 in
theorem priority_tier_order_witness :
    ESS.performPrioritySearch (jstr "mcq") = [ESS.imageBankResult (jstr "mcq")] ∧
    ESS.performPrioritySearch (jstr "smartwall") =
      (sortByConfDesc (ESS.oneClickHits (jsTrim (jsToLower (jstr "smartwall"))))).take 1 ∧
    P001.performPrioritySearch (jstr "smart wall") =
      [P001.oneClickResult ⟨jstr "Smart Wall", jstr "/views/academic/smart-wall?ocrc",
        [jstr "smart wall", jstr "smartwall", jstr "class decoration",
         jstr "classroom decoration"]⟩] :=
  ⟨(priority_tier_order (jstr "mcq")).1 (by decide),
   (priority_tier_order (jstr "smartwall")).2.1 (by decide) (by decide),
   (priority_tier_order (jstr "smart wall")).2.2 _ (by decide)⟩

/-! ## C3 -/

/-- C3 counterexample: on `"age 5"` the extractor returns `classNum =
some 0`, which is neither `null` nor in `[1, 10]`. -/
theorem classNum_range_counterexample :
    (ESS.extractClassAndSubject (jstr "age 5")).classNum = some 0 ∧
    ¬(1 ≤ (0 : ℕ)) :=
  ⟨by decide, by decide⟩

theorem findClassNum_range (pats : List (List Char → Option (List Char)))
    (q : List Char) :
    ∀ v, findClassNum pats q = some v → 1 ≤ v ∧ v ≤ 10 := by
  induction pats with
  | nil => intro v h; simp [findClassNum] at h
  | cons p ps ih =>
    intro v h
    simp only [findClassNum] at h
    split at h
    · split at h
      · cases h
        assumption
      · exact ih v h
    · exact ih v h

/-- C3 amended: `extractClassAndSubject(q).classNum` is `null` or an
integer in `[0, 10]`: the class patterns enforce `[1, 10]`, but the
`age N` pattern maps the valid ages `5–15` to `N - 5`, so `age 5` yields
the out-of-spec value `0` instead of being rejected. -/
theorem extractClassAndSubject_classNum_bounded (q : List Char) :
    (ESS.extractClassAndSubject q).classNum = Option.none ∨
    ∃ n, (ESS.extractClassAndSubject q).classNum = some n ∧ n ≤ 10 := by
  simp only [ESS.extractClassAndSubject]
  split
  · next r heq =>
    split at heq
    · next ds =>
      split at heq
      · next hrange =>
        cases heq
        right
        exact ⟨_, rfl, by omega⟩
      · cases heq
    · cases heq
  · rcases hf : findClassNum [classPat1At, classPat2At, classPat3At]
        (jsTrim (jsToLower q)) with _ | v
    · left; rfl
    · right
      exact ⟨v, by simp [hf], (findClassNum_range _ _ v hf).2⟩

/-! ## C5 -/

/-- C5 counterexample: on `"asdfgh"` (length 6, has the vowel `a`, has
letters) the claimed rule says "meaningful", and the `part_001`
implementation agrees, but the `part_006` variant — also cited by the
claim — returns `true` (it has a four-consecutive-consonants rule and
applies the keyboard-mash check at every length). -/
theorem meaningless_rule_counterexample :
    P006.isMeaningless (jstr "asdfgh") = true ∧
    meaninglessClaimRule (jstr "asdfgh") = false ∧
    P001.isMeaningless (jstr "asdfgh") = false :=
  ⟨by decide, by decide, by decide⟩

theorem any_perm_eq {α} (f : α → Bool) {l₁ l₂ : List α} (h : l₁.Perm l₂) :
    l₁.any f = l₂.any f := by
  rw [Bool.eq_iff_iff, List.any_eq_true, List.any_eq_true]
  constructor
  · rintro ⟨x, hx, hfx⟩
    exact ⟨x, h.mem_iff.mp hx, hfx⟩
  · rintro ⟨x, hx, hfx⟩
    exact ⟨x, h.mem_iff.mpr hx, hfx⟩

/-- C5 amended: the claimed rule holds verbatim of the `part_001`
`isMeaningless`; the `part_006` variant additionally flags any query with
four consecutive consonants and applies the keyboard-mash check at every
length, so the two cited implementations disagree (e.g. on `"asdfgh"`). -/
theorem isMeaningless_iff_claim_rule (q : List Char) :
    P001.isMeaningless q = meaninglessClaimRule q := by
  simp only [P001.isMeaningless, meaninglessClaimRule]
  generalize jsToLower (jsTrim q) = t
  by_cases h2 : t.length < 2
  · simp [h2]
  · simp only [h2, if_false, decide_eq_false h2, Bool.false_or]
    cases hA : t.any isAsciiAlpha
    · simp [hA]
    · simp only [hA, Bool.not_true, if_false, Bool.false_or]
      cases hV : t.any isVowelI
      · simp [hV]
      · simp only [hV, Bool.not_true, if_false, Bool.false_or]
        by_cases h6 : t.length < 6
        · simp only [h6, if_true, decide_eq_true h6, Bool.true_and]
          exact any_perm_eq _ (by decide)
        · simp [h6]

/-! ## C6 -/

set_option maxRecDepth 20000 in
/-- C6: the spelling corrector is *not* idempotent, and correcting an
already-correct dictionary value can alter it: `"scince"` corrects to the
dictionary value `"science"`, but correcting `"science"` itself yields
`"snake"` — the nearest-neighbour loop leaves the word unchanged, so the
Soundex fallback runs even though the word is a known-correct value, and
the first dictionary value with code `S520` is `"snake"`. -/
theorem correctSpelling_science_to_snake :
    Spell.correctSpelling (jstr "scince") = jstr "science" ∧
    (jstr "science") ∈ Spell.COMMON_WORDS.map Prod.snd ∧
    Spell.correctSpelling (jstr "science") = jstr "snake" ∧
    soundex (jstr "science") = soundex (jstr "snake") :=
  ⟨by decide, by decide, by decide, by decide⟩

/-! ## C7 -/

theorem soundexLoop_code_prefix : ∀ (rest code : List Char) (prev : Char),
    ∃ t, soundexLoop rest code prev = code ++ t := by
  intro rest
  induction rest with
  | nil => exact fun code prev => ⟨[], by simp [soundexLoop]⟩
  | cons c cs ih =>
    intro code prev
    simp only [soundexLoop]
    split
    · have key : ∀ code' prev', (∃ X, code' = code ++ X) →
          ∃ t, soundexLoop cs code' prev' = code ++ t := by
        rintro code' prev' ⟨X, hX⟩
        rcases ih code' prev' with ⟨t, ht⟩
        exact ⟨X ++ t, by rw [ht, hX, List.append_assoc]⟩
      apply key
      split
      · exact ⟨[soundexCode c], rfl⟩
      · exact ⟨[], by simp⟩
    · exact ⟨[], by simp⟩

/-- C7: `soundex` always returns exactly 4 characters; when no letter
survives the `[^A-Z]` filter the result is the sentinel `"0000"`, and
otherwise the first character of the code is the (uppercased) first
letter. -/
theorem soundex_shape (s : List Char) :
    (soundex s).length = 4 ∧
    (soundexFilter s = [] → soundex s = jstr "0000") ∧
    (∀ c rest, soundexFilter s = c :: rest → (soundex s).head? = some c) := by
  refine ⟨?_, ?_, ?_⟩
  · simp only [soundex]
    split
    · rfl
    · rw [List.length_take, List.length_append]
      have h4 : (jstr "0000").length = 4 := rfl
      omega
  · intro h
    simp [soundex, h]
  · intro c rest h
    simp only [soundex, h]
    rcases soundexLoop_code_prefix rest [c] (soundexCode c) with ⟨t, ht⟩
    rw [ht]
    simp

theorem soundex_shape_witness :
    (soundex (jstr "robert")).length = 4 ∧
    soundex (jstr "123") = jstr "0000" ∧
    (soundex (jstr "robert")).head? = some 'R' :=
  ⟨(soundex_shape (jstr "robert")).1,
   (soundex_shape (jstr "123")).2.1 (by decide),
   (soundex_shape (jstr "robert")).2.2 'R' (jstr "OBERT") (by decide)⟩

/-! ## C8 -/

/-- C8: both embedded Levenshtein implementations are metric-like:
distance of a string to itself is 0, distance is symmetric, and (being
natural-number valued) distance is non-negative. -/
theorem levenshtein_metric (a b : List Char) :
    Spell.levenshtein a a = 0 ∧ Adv.levenshteinDistance a a = 0 ∧
    Spell.levenshtein a b = Spell.levenshtein b a ∧
    Adv.levenshteinDistance a b = Adv.levenshteinDistance b a ∧
    0 ≤ Spell.levenshtein a b ∧ 0 ≤ Adv.levenshteinDistance a b := by
  refine ⟨?_, ?_, ?_, ?_, Nat.zero_le _, Nat.zero_le _⟩
  · simp [Spell.levenshtein]
  · simp [Adv.levenshteinDistance, levMatrix, levD_self]
  · simp only [Spell.levenshtein]
    by_cases h1 : jsToLower a = jsToLower b
    · rw [if_pos h1, if_pos h1.symm]
    · have h1' : ¬ (jsToLower b = jsToLower a) := fun h => h1 h.symm
      rw [if_neg h1, if_neg h1']
      by_cases h2 : (jsToLower a).length = 0
      · have h3 : (jsToLower b).length ≠ 0 := by
          intro h3
          apply h1
          rw [List.length_eq_zero] at h2 h3
          rw [h2, h3]
        simp [h2, h3]
      · by_cases h3 : (jsToLower b).length = 0
        · simp [h2, h3]
        · rw [if_neg h2, if_neg h3, if_neg h3, if_neg h2]
          exact levD_symm _ _
  · exact levD_symm _ _

/-! ## C9 -/

/-- C9 counterexample: on the empty pair the distance is indeed 0, but the
JS similarity is `0/0 = NaN` and `NaN >= threshold` is false, so the
fuzzy-match predicate fails even at the threshold `0.7 ≤ 1`. -/
theorem fuzzyMatch_empty_counterexample :
    Adv.levenshteinDistance [] [] = 0 ∧
    (7 : ℚ) / 10 ≤ 1 ∧
    Adv.fuzzyMatch [] [] ((7 : ℚ) / 10) = false :=
  ⟨by decide, by norm_num, by decide⟩

/-- C9 amended: whenever at least one input is non-empty the similarity
`1 - distance / maxLength` is a well-defined rational and the predicate
compares it against the threshold; on the empty pair the distance is 0 but
the similarity is the undefined `0/0` (JS `NaN`), so the predicate is
false at every threshold. -/
theorem fuzzyMatch_welldef (a b : List Char) (th : ℚ) :
    (max a.length b.length ≠ 0 →
      (Adv.fuzzyMatch a b th = true ↔
        th ≤ 1 - (Adv.levenshteinDistance (jsToLower a) (jsToLower b) : ℚ) /
          ((max a.length b.length : ℕ) : ℚ))) ∧
    Adv.levenshteinDistance [] [] = 0 ∧
    Adv.fuzzyMatch [] [] th = false := by
  refine ⟨?_, by decide, ?_⟩
  · intro h
    simp only [Adv.fuzzyMatch, h, if_false]
    rw [decide_eq_true_iff]
  · simp [Adv.fuzzyMatch]

theorem fuzzyMatch_welldef_witness :
    Adv.fuzzyMatch (jstr "ab") (jstr "b") ((7 : ℚ) / 10) = true ↔
      (7 : ℚ) / 10 ≤ 1 -
        (Adv.levenshteinDistance (jsToLower (jstr "ab")) (jsToLower (jstr "b")) : ℚ) /
          ((max (jstr "ab").length (jstr "b").length : ℕ) : ℚ) :=
  (fuzzyMatch_welldef (jstr "ab") (jstr "b") ((7 : ℚ) / 10)).1 (by decide)
